import Mathlib

/-!
Verification of the echo-otel-metrics middleware.

This file gives a shallow embedding of the request-to-measurement logic of
the repository and proves the specification claims about it.

Embedded source files:
- otel-meter.go            : semantic-convention middleware (`New`, `handlerFunc`,
                             `initMetricsMeterProvider`, `computeApproximateRequestSize`)
- opentelemetry-meter.go   : legacy/compatible middleware (`HandlerFunc`, `registerMetrics`)
- otelmetric/selector.go   : unit-keyed aggregator selection (`AggregatorFor`)
- the test helper `unregisterDefaults` (repository test file)

Modelling conventions:
- Go machine integers are modelled as `Int`/`Nat` (no overflow is reachable for
  the realistic sizes involved: byte lengths and millisecond counts).
- Go `float64` values recorded on histograms are modelled as `ℚ`; the recorded
  expressions (`float64(elapsed)/1000` etc.) are exact at this abstraction level.
- The per-request middleware body is a pure function from the request context
  and the wrapped-handler outcome to the ordered list of instrument operations
  (`Add`/`Record` calls) it issues, in program order, plus the returned error.
-/

namespace EchoOtelMetrics

/-- Attribute values used by the middleware: `attribute.String` and `attribute.Int`. -/
inductive AttrValue where
  | str (s : String)
  | int (i : Int)
deriving DecidableEq, Repr

/-- go.opentelemetry.io/otel/attribute.KeyValue, restricted to the kinds used. -/
structure KeyValue where
  key : String
  value : AttrValue
deriving DecidableEq, Repr

/-- net/url.URL: only the Path field is read by the middleware. -/
structure URL where
  path : String
deriving DecidableEq, Repr

/-- net/http.Request, restricted to the fields read by the middleware.
String lengths in Go (`len`) are byte lengths, modelled via `String.utf8ByteSize`.
`contentLength` models the int64 `ContentLength` field (-1 means unknown). -/
structure HttpRequest where
  url : Option URL
  method : String
  proto : String
  header : List (String × List String)
  host : String
  contentLength : Int
deriving DecidableEq, Repr

/-- echo.HTTPError: only the Code field is read by the middleware. -/
structure HTTPError where
  code : Int
deriving DecidableEq, Repr

/-- a Go error value as the middleware observes it: the (possible) result of
`errors.As(err, &httpError)`. `asHTTPError = some e` models a typed
`*echo.HTTPError` in the error chain; `none` models an untyped error. -/
structure GoError where
  asHTTPError : Option HTTPError
deriving DecidableEq, Repr

/-- the echo.Context fields read by the middleware. `path` is `c.Path()` (the
matched route template, empty for 404), `scheme` is `c.Scheme()`, `store` models
`c.Get` for the legacy `URLLabelFromContext` lookup. -/
structure EchoContext where
  path : String
  request : HttpRequest
  scheme : String
  store : String → Option String

/-- everything the wrapped handler call `next(c)` determines, observed at exit:
the returned error, the response status and size it left on the context, and
the wall time it took (`time.Since(start)` at exit, in nanoseconds). -/
structure HandlerOutcome where
  err : Option GoError
  responseStatus : Int
  responseSize : Int
  elapsedNs : Nat

/-- semconv.go: the instrument and attribute names of the semantic catalog. -/
def MetricHTTPServerRequestDuration : String := "http.server.request.duration"

def MetricHTTPServerActiveRequests : String := "http.server.active_requests"

def MetricHTTPServerRequestBodySize : String := "http.server.request.body.size"

def MetricHTTPServerResponseBodySize : String := "http.server.response.body.size"

def URLScheme : String := "url.scheme"

def ServerAddress : String := "server.address"

def HttpRoute : String := "http.route"

def HttpRequestMethod : String := "http.request.method"

def HttpResponseStatusCode : String := "http.response.status_code"

/-- otel-meter.go `computeApproximateRequestSize` (lines 388-410): sum of path,
method, proto, header names/values and host byte lengths, plus ContentLength
when it is not -1. -/
def computeApproximateRequestSize (r : HttpRequest) : Int :=
  let s : Int := match r.url with
    | some u => (u.path.utf8ByteSize : Int)
    | none => 0
  let s := s + (r.method.utf8ByteSize : Int)
  let s := s + (r.proto.utf8ByteSize : Int)
  let s := r.header.foldl
    (fun acc nv =>
      nv.2.foldl (fun a v => a + (v.utf8ByteSize : Int)) (acc + (nv.1.utf8ByteSize : Int)))
    s
  let s := s + (r.host.utf8ByteSize : Int)
  if r.contentLength ≠ -1 then s + r.contentLength else s

/-- otel-meter.go lines 252-262 (identical in opentelemetry-meter.go 296-305):
status starts as the response status; on error, a typed HTTP error overrides it
with its embedded code, and a resulting 0 or 200 is forced to 500. -/
def resolveStatus (responseStatus : Int) (err : Option GoError) : Int :=
  match err with
  | none => responseStatus
  | some e =>
    let status := match e.asHTTPError with
      | some he => he.code
      | none => responseStatus
    if status = 0 ∨ status = 200 then 500 else status

/-- one call into the aggregation engine: `Int64Counter.Add`/`Int64UpDownCounter.Add`,
`Float64Histogram.Record`, or `Int64Histogram.Record`, with the instrument name,
the argument and the attribute list. -/
inductive Observation where
  | addInt (instr : String) (delta : Int) (attrs : List KeyValue)
  | recordFloat (instr : String) (value : ℚ) (attrs : List KeyValue)
  | recordInt (instr : String) (value : Int) (attrs : List KeyValue)
deriving DecidableEq, Repr

/-- MiddlewareConfig of otel-meter.go, restricted to the fields `handlerFunc`
reads (after `New` applied its defaults, so all fields are populated). -/
structure MiddlewareConfig where
  metricsPath : String
  skipper : EchoContext → Bool
  requestCounterURLLabelMappingFunc : EchoContext → String
  requestCounterHostLabelMappingFunc : EchoContext → String

/-- the attribute list used for the in-flight counter (otel-meter.go 247-248 and
289-290): method, server address, scheme. -/
def inflightAttributes (c : EchoContext) (host : String) : List KeyValue :=
  [⟨HttpRequestMethod, .str c.request.method⟩,
   ⟨ServerAddress, .str host⟩,
   ⟨URLScheme, .str c.scheme⟩]

/-- commonAttributes of otel-meter.go lines 269-275: scheme, status, method,
server address, route. -/
def commonAttributes (c : EchoContext) (status : Int) (host url : String) : List KeyValue :=
  [⟨URLScheme, .str c.scheme⟩,
   ⟨HttpResponseStatusCode, .int status⟩,
   ⟨HttpRequestMethod, .str c.request.method⟩,
   ⟨ServerAddress, .str host⟩,
   ⟨HttpRoute, .str url⟩]

/-- otel-meter.go `handlerFunc` (lines 234-293). Returns the instrument
operations issued for this request, in program order, and the error returned to
the dispatcher. `next` is the wrapped handler; its outcome also carries the
elapsed wall time of the call. `elapsed` is `time.Since(start) / time.Millisecond`
(integer division of nanoseconds); `int64(float64(c.Response().Size))` is the
identity for realistic sizes and is modelled as such. -/
def handlerFunc (p : MiddlewareConfig) (next : EchoContext → HandlerOutcome)
    (c : EchoContext) : List Observation × Option GoError :=
  if c.path = p.metricsPath then
    ([], (next c).err)
  else if p.skipper c then
    ([], (next c).err)
  else
    let reqSz := computeApproximateRequestSize c.request
    let host := p.requestCounterHostLabelMappingFunc c
    let out := next c
    let status := resolveStatus out.responseStatus out.err
    let elapsed : Nat := out.elapsedNs / 1000000
    let url := p.requestCounterURLLabelMappingFunc c
    let elapsedSeconds : ℚ := (elapsed : ℚ) / 1000
    let attrs := commonAttributes c status host url
    ([Observation.addInt MetricHTTPServerActiveRequests 1 (inflightAttributes c host),
      Observation.recordFloat MetricHTTPServerRequestDuration elapsedSeconds attrs,
      Observation.addInt "requests" 1 attrs,
      Observation.recordInt MetricHTTPServerRequestBodySize reqSz attrs,
      Observation.recordInt MetricHTTPServerResponseBodySize out.responseSize attrs,
      Observation.addInt MetricHTTPServerActiveRequests (-1) (inflightAttributes c host)],
     out.err)

/-- the Prometheus struct of opentelemetry-meter.go, restricted to the fields
`HandlerFunc` reads. -/
structure PrometheusConfig where
  metricsPath : String
  subsystem : String
  skipper : EchoContext → Bool
  requestCounterURLLabelMappingFunc : EchoContext → String
  requestCounterHostLabelMappingFunc : EchoContext → String
  urlLabelFromContext : String

/-- opentelemetry-meter.go `HandlerFunc` (lines 282-346), the legacy
(milliseconds-mode) middleware body. `elapsed` is
`float64(time.Since(start)) / float64(time.Millisecond)`, i.e. fractional
milliseconds. Instruments are registered under `subsystem + "." + name`
(registerMetrics, lines 244-273). -/
def HandlerFunc (p : PrometheusConfig) (next : EchoContext → HandlerOutcome)
    (c : EchoContext) : List Observation × Option GoError :=
  if c.path = p.metricsPath then
    ([], (next c).err)
  else if p.skipper c then
    ([], (next c).err)
  else
    let reqSz := computeApproximateRequestSize c.request
    let out := next c
    let status := resolveStatus out.responseStatus out.err
    let elapsed : ℚ := (out.elapsedNs : ℚ) / 1000000
    let url0 := p.requestCounterURLLabelMappingFunc c
    let url := if p.urlLabelFromContext.length > 0 then
        match c.store p.urlLabelFromContext with
        | none => "unknown"
        | some u => u
      else url0
    ([Observation.recordFloat (p.subsystem ++ "." ++ "request_duration") elapsed
        [⟨"code", .int status⟩, ⟨"method", .str c.request.method⟩, ⟨"url", .str url⟩],
      Observation.addInt (p.subsystem ++ "." ++ "requests_total") 1
        [⟨"code", .int status⟩, ⟨"method", .str c.request.method⟩,
         ⟨"host", .str (p.requestCounterHostLabelMappingFunc c)⟩, ⟨"url", .str url⟩],
      Observation.recordFloat (p.subsystem ++ "." ++ "request_size") (reqSz : ℚ)
        [⟨"code", .int status⟩, ⟨"method", .str c.request.method⟩, ⟨"url", .str url⟩],
      Observation.recordFloat (p.subsystem ++ "." ++ "response_size") (out.responseSize : ℚ)
        [⟨"code", .int status⟩, ⟨"method", .str c.request.method⟩, ⟨"url", .str url⟩]],
     out.err)

/-! ### Bucket boundary sets and views (otel-meter.go 46-52, 327-367) -/

/-- otel-meter.go line 47: prometheus default duration buckets, in seconds. -/
def reqDurBucketsSeconds : List ℚ :=
  [5/1000, 1/100, 25/1000, 5/100, 1/10, 25/100, 5/10, 1, 5/2, 5, 10]

/-- otel-meter.go line 49: long-execution duration buckets, in seconds. -/
def longExecBucketsSeconds : List ℚ :=
  [1/2, 1, 3/2, 5/2, 5, 10, 15, 25, 40, 60, 90, 120, 150, 200, 250, 300]

/-- otel-meter.go line 52: request/response size buckets, in bytes
(1KB, 2KB, 5KB, 10KB, 100KB, 500KB, 1MB, 2.5MB, 5MB, 10MB). -/
def byteBuckets : List ℚ :=
  [1024, 2048, 5120, 10240, 102400, 512000, 1048576, 2621440, 5242880, 10485760]

/-- opentelemetry-meter.go line 48: the legacy duration buckets, in milliseconds. -/
def reqDurBuckets : List ℚ :=
  [5, 10, 25, 50, 100, 250, 500, 1000, 2500, 5000, 10000]

/-- opentelemetry-meter.go line 51: the legacy request size buckets, in bytes. -/
def reqSzBuckets : List ℚ :=
  [1024, 2048, 5120, 10240, 102400, 512000, 1048576, 2621440, 5242880, 10485760]

/-- opentelemetry-meter.go line 54: the legacy response size buckets, in bytes. -/
def resSzBuckets : List ℚ :=
  [1024, 2048, 5120, 10240, 102400, 512000, 1048576, 2621440, 5242880, 10485760]

/-- instrument kinds as used by the view criteria and selector. -/
inductive InstrumentKind where
  | counter
  | upDownCounter
  | histogram
  | gaugeObserver
deriving DecidableEq, Repr

/-- one sdkmetric.NewView call: an instrument-name pattern, an optional kind
filter, and the explicit bucket boundaries the stream carries (none for the
default stream). -/
structure View where
  namePattern : String
  kind : Option InstrumentKind
  boundaries : Option (List ℚ)
deriving DecidableEq, Repr

/-- the otel SDK wildcard match for view instrument names: a leading `*`
matches any suffix-anchored name (all patterns used by the repository are
either `*` or of the form `*suffix`). The comparison is done on character
lists so that it evaluates by kernel reduction. -/
def matchesWildcard (pattern name : String) : Bool :=
  match pattern.data with
  | [] => pattern = name
  | c :: rest => if c = '*' then List.isSuffixOf rest name.data else pattern = name

def viewMatches (v : View) (name : String) (k : InstrumentKind) : Bool :=
  matchesWildcard v.namePattern name &&
    (match v.kind with
     | none => true
     | some vk => vk = k)

/-- the views supplied to the meter provider by initMetricsMeterProvider
(otel-meter.go 327-367), in the order of the WithView call:
longExecBucketsView, execBucketsView, durationBucketsView, bytesBucketsView,
defaultView. -/
def metricsViews : List View :=
  [⟨"*long_exec.cost", none, some longExecBucketsSeconds⟩,
   ⟨"*exec.cost", none, some reqDurBucketsSeconds⟩,
   ⟨"*request.duration", none, some reqDurBucketsSeconds⟩,
   ⟨"*body.size", none, some byteBuckets⟩,
   ⟨"*", some .counter, none⟩]

/-- the bucket boundaries an instrument ends up with: those of the first view
whose criteria match it (for the instruments of this repository at most one
bucket-carrying view matches, so first-match agrees with the SDK's
all-matching-views semantics). -/
def assignedBoundaries (name : String) (k : InstrumentKind) : Option (List ℚ) :=
  match metricsViews.find? (fun v => viewMatches v name k) with
  | some v => v.boundaries
  | none => none

/-- aggregation kinds produced by the selector (otelmetric/selector.go). -/
inductive Aggregation where
  | lastValue
  | histogramAgg (boundaries : Option (List ℚ))
  | sum
deriving DecidableEq, Repr

/-- otelmetric/selector.go `AggregatorFor` (lines 44-65): gauge observers get
last-value, histograms get explicit buckets keyed on the instrument unit
(milliseconds → duration buckets, bytes → size buckets, otherwise the
selector's configured options), everything else gets sum. The otelmetric
package's duration buckets are the millisecond-scaled `reqDurBuckets`. -/
def AggregatorFor (kind : InstrumentKind) (u : String)
    (defaults : Option (List ℚ)) : Aggregation :=
  match kind with
  | .gaugeObserver => .lastValue
  | .histogram =>
    if u = "ms" then .histogramAgg (some reqDurBuckets)
    else if u = "By" then .histogramAgg (some reqSzBuckets)
    else .histogramAgg defaults
  | _ => .sum

/-! ### Instrument construction (otel-meter.go `New`, opentelemetry-meter.go
`registerMetrics`) -/

/-- behaviour of the meter collaborator at construction time: the set of
instrument names whose creation fails. -/
structure MeterBehavior where
  failing : List String
deriving DecidableEq, Repr

/-- the error returned by one meter instrument-creation call. -/
def createErr (m : MeterBehavior) (name : String) : Option String :=
  if name ∈ m.failing then some name else none

/-- construction either yields a middleware instance carrying its instrument
handles (named by their registered instrument names), or panics. -/
inductive ConstructionResult where
  | ok (instruments : List String)
  | panicked (msg : String)
deriving DecidableEq, Repr

/-- otel-meter.go `New` (lines 125-227), instrument-creation part. Each
creation is followed by `if err != nil { panic(err) }` EXCEPT the
active-requests up/down counter: the source assigns `err` at line 193 and then
overwrites it at line 198 without checking it, so that creation's error is
discarded and construction proceeds. -/
def New (m : MeterBehavior) : ConstructionResult :=
  match createErr m "requests" with
  | some e => .panicked e
  | none =>
    let _ := createErr m MetricHTTPServerActiveRequests
    match createErr m MetricHTTPServerRequestDuration with
    | some e => .panicked e
    | none =>
      match createErr m MetricHTTPServerRequestBodySize with
      | some e => .panicked e
      | none =>
        match createErr m MetricHTTPServerResponseBodySize with
        | some e => .panicked e
        | none =>
          .ok ["requests", MetricHTTPServerActiveRequests,
               MetricHTTPServerRequestDuration, MetricHTTPServerRequestBodySize,
               MetricHTTPServerResponseBodySize]

/-- opentelemetry-meter.go `registerMetrics` (lines 244-273): every creation
uses `p.X, _ = meter...`, discarding the error, so construction always
succeeds whatever the meter reports. -/
def registerMetrics (m : MeterBehavior) (subsystem : String) : ConstructionResult :=
  let _ := createErr m (subsystem ++ "." ++ "requests_total")
  let _ := createErr m (subsystem ++ "." ++ "request_duration")
  let _ := createErr m (subsystem ++ "." ++ "response_size")
  let _ := createErr m (subsystem ++ "." ++ "request_size")
  .ok [subsystem ++ "." ++ "requests_total", subsystem ++ "." ++ "request_duration",
       subsystem ++ "." ++ "response_size", subsystem ++ "." ++ "request_size"]

/-! ### Registry model and `unregisterDefaults` -/

/-- Modelled from the spec: the Prometheus registry collaborator (the
client_golang library is not part of this repository). Per the spec's
external-interface contract, `Register` returns a distinguishable
already-registered error carrying the existing collector, and `Unregister`
removes a collector. Collectors are identified by their fully-qualified
metric-family name. -/
structure Registry where
  collectors : List String
deriving DecidableEq, Repr

/-- result of `Registerer.Register`. -/
inductive RegisterResult where
  | ok (r : Registry)
  | alreadyRegistered (existing : String)
deriving DecidableEq, Repr

def Registry.register (r : Registry) (name : String) : RegisterResult :=
  if name ∈ r.collectors then .alreadyRegistered name
  else .ok ⟨r.collectors ++ [name]⟩

def Registry.unregister (r : Registry) (name : String) : Registry :=
  ⟨r.collectors.erase name⟩

/-- Modelled from the spec: the metric families the exporter registers for a
namespace — the four base names of the metric-name contract, prefixed by the
namespace (requests counter, duration histogram, request-size and
response-size histograms). -/
def exportedFamilies (ns : String) : List String :=
  [ns ++ "_requests_total", ns ++ "_request_duration_seconds",
   ns ++ "_request_size_bytes", ns ++ "_response_size_bytes"]

def registerAll (r : Registry) (names : List String) : Except String Registry :=
  match names with
  | [] => .ok r
  | n :: rest =>
    match r.register n with
    | .ok r₂ => registerAll r₂ rest
    | .alreadyRegistered e => .error e

/-- otel-meter.go `initMetricsMeterProvider` (lines 295-373), registration
part: `exporter, err := prometheus.New(prometheus.WithRegisterer(...)); if err
!= nil { panic(err) }`. A registration error propagates to a panic, modelled
as `Except.error`; construction performs no already-registered recovery. -/
def initMetricsMeterProvider (ns : String) (r : Registry) : Except String Registry :=
  registerAll r (exportedFamilies ns)

/-- the `unRegisterCollector` closure of the test helper `unregisterDefaults`:
register a dummy duplicate under the same family name; if that succeeds,
return (the dummy stays registered); on an already-registered error,
unregister the existing collector carried by the error. -/
def unRegisterCollector (r : Registry) (fq : String) : Registry :=
  match r.register fq with
  | .ok r₂ => r₂
  | .alreadyRegistered existing => r.unregister existing

/-- the test helper `unregisterDefaults(subsystem)`: reclaim the five default
metric families from the process-default registry via the dummy-duplicate
idiom, in source order. -/
def unregisterDefaults (subsystem : String) (r : Registry) : Registry :=
  let r := unRegisterCollector r (subsystem ++ "_requests_total")
  let r := unRegisterCollector r (subsystem ++ "_request_duration_seconds")
  let r := unRegisterCollector r (subsystem ++ "_request_duration_milliseconds")
  let r := unRegisterCollector r (subsystem ++ "_response_size_bytes")
  unRegisterCollector r (subsystem ++ "_request_size_bytes")

/-! ### Extraction helpers over observation lists -/

/-- whether an observation is an Add on the request counter of the semantic
catalog (instrument name "requests"). -/
def isRequestsAdd : Observation → Bool
  | .addInt instr _ _ => instr = "requests"
  | _ => false

/-- the delta an observation contributes to the in-flight up/down counter. -/
def activeDelta : Observation → Int
  | .addInt instr d _ => if instr = MetricHTTPServerActiveRequests then d else 0
  | _ => 0

/-- net change of the in-flight up/down counter over a list of observations. -/
def activeSum (l : List Observation) : Int :=
  (l.map activeDelta).sum

/-- the status-code label on the (unique) request-counter Add of an
observation list, when present. -/
def counterStatusAttr (l : List Observation) : Option Int :=
  match l.filter isRequestsAdd with
  | [Observation.addInt _ _ attrs] =>
    match attrs.find? (fun kv => kv.key = HttpResponseStatusCode) with
    | some ⟨_, .int i⟩ => some i
    | _ => none
  | _ => none

/-! ### Concrete fixtures used by the witness theorems -/

def sampleRequest : HttpRequest :=
  { url := some ⟨"/ping"⟩, method := "GET", proto := "HTTP/1.1",
    header := [("Accept", ["text/html"])], host := "example.com", contentLength := 5 }

def sampleCtx : EchoContext :=
  { path := "/ping", request := sampleRequest, scheme := "http", store := fun _ => none }

def metricsCtx : EchoContext :=
  { path := "/metrics", request := sampleRequest, scheme := "http", store := fun _ => none }

def sampleCfg : MiddlewareConfig :=
  { metricsPath := "/metrics", skipper := fun _ => false,
    requestCounterURLLabelMappingFunc := fun c => c.path,
    requestCounterHostLabelMappingFunc := fun c => c.request.host }

def samplePromCfg : PrometheusConfig :=
  { metricsPath := "/metrics", subsystem := "echo", skipper := fun _ => false,
    requestCounterURLLabelMappingFunc := fun c => c.path,
    requestCounterHostLabelMappingFunc := fun c => c.request.host,
    urlLabelFromContext := "" }

def sampleNext : EchoContext → HandlerOutcome :=
  fun _ => { err := none, responseStatus := 200, responseSize := 2, elapsedNs := 7500000 }

def erroringNext : EchoContext → HandlerOutcome :=
  fun _ => { err := some ⟨some ⟨409⟩⟩, responseStatus := 200, responseSize := 0,
             elapsedNs := 3000000 }

/-! ### C4: skipped requests record nothing and pass the handler result through -/

/-- C4: for every request whose path equals the metrics path or for which the
skip predicate returns true, the middleware records zero observations on every
instrument, while the wrapped handler still runs and its return value is
passed back unchanged (otel-meter.go 236-241). -/
theorem skipped_requests_record_nothing (p : MiddlewareConfig)
    (next : EchoContext → HandlerOutcome) (c : EchoContext)
    (h : c.path = p.metricsPath ∨ p.skipper c = true) :
    handlerFunc p next c = ([], (next c).err) := by
  rcases h with h | h
  · simp [handlerFunc, h]
  · simp [handlerFunc, h]

/-- witness for C4 at a concrete skipped request: the path equals the metrics
path, no observation is issued, and the handler's nil error is returned. -/
theorem skipped_requests_record_nothing_witness :
    (metricsCtx.path = sampleCfg.metricsPath ∨ sampleCfg.skipper metricsCtx = true) ∧
      handlerFunc sampleCfg sampleNext metricsCtx = ([], none) :=
  ⟨Or.inl rfl,
   skipped_requests_record_nothing sampleCfg sampleNext metricsCtx (Or.inl rfl)⟩

/-! ### C10: the metrics-path check precedes the skip predicate -/

/-- C10: for a request to the metrics path, both middleware bodies return the
wrapped handler's result directly and their output is independent of the
configured skip predicate — the skip predicate can never observe or affect
such a request (otel-meter.go 236-241, opentelemetry-meter.go 283-289). -/
theorem metrics_path_checked_before_skipper (p : MiddlewareConfig)
    (pl : PrometheusConfig) (s₁ s₂ : EchoContext → Bool)
    (next : EchoContext → HandlerOutcome) (c : EchoContext)
    (h : c.path = p.metricsPath) (hl : c.path = pl.metricsPath) :
    handlerFunc { p with skipper := s₁ } next c
        = handlerFunc { p with skipper := s₂ } next c ∧
      handlerFunc { p with skipper := s₁ } next c = ([], (next c).err) ∧
      HandlerFunc { pl with skipper := s₁ } next c
        = HandlerFunc { pl with skipper := s₂ } next c ∧
      HandlerFunc { pl with skipper := s₁ } next c = ([], (next c).err) := by
  refine ⟨?_, ?_, ?_, ?_⟩
  · simp [handlerFunc, h]
  · simp [handlerFunc, h]
  · simp [HandlerFunc, hl]
  · simp [HandlerFunc, hl]

/-- witness for C10: at a concrete metrics-path request, an always-true and an
always-false skip predicate produce the same (empty) output. -/
theorem metrics_path_checked_before_skipper_witness :
    handlerFunc { sampleCfg with skipper := fun _ => true } sampleNext metricsCtx
        = handlerFunc { sampleCfg with skipper := fun _ => false } sampleNext metricsCtx ∧
      handlerFunc { sampleCfg with skipper := fun _ => true } sampleNext metricsCtx
        = ([], none) ∧
      HandlerFunc { samplePromCfg with skipper := fun _ => true } sampleNext metricsCtx
        = HandlerFunc { samplePromCfg with skipper := fun _ => false } sampleNext metricsCtx ∧
      HandlerFunc { samplePromCfg with skipper := fun _ => true } sampleNext metricsCtx
        = ([], none) :=
  metrics_path_checked_before_skipper sampleCfg samplePromCfg
    (fun _ => true) (fun _ => false) sampleNext metricsCtx rfl rfl

/-! ### Evaluation of the measured branch -/

/-- the attribute list a measured request ends up with: commonAttributes at the
resolved status, host and route. -/
def resolvedAttributes (p : MiddlewareConfig) (next : EchoContext → HandlerOutcome)
    (c : EchoContext) : List KeyValue :=
  commonAttributes c (resolveStatus (next c).responseStatus (next c).err)
    (p.requestCounterHostLabelMappingFunc c) (p.requestCounterURLLabelMappingFunc c)

/-- on a measured request (path not the metrics path, skip predicate false) the
semantic middleware issues exactly the six operations of otel-meter.go
lines 247-291, in program order, and returns the handler's error unchanged. -/
theorem handlerFunc_measured (p : MiddlewareConfig)
    (next : EchoContext → HandlerOutcome) (c : EchoContext)
    (hp : c.path ≠ p.metricsPath) (hs : p.skipper c = false) :
    handlerFunc p next c =
      ([Observation.addInt MetricHTTPServerActiveRequests 1
          (inflightAttributes c (p.requestCounterHostLabelMappingFunc c)),
        Observation.recordFloat MetricHTTPServerRequestDuration
          ((((next c).elapsedNs / 1000000 : Nat) : ℚ) / 1000) (resolvedAttributes p next c),
        Observation.addInt "requests" 1 (resolvedAttributes p next c),
        Observation.recordInt MetricHTTPServerRequestBodySize
          (computeApproximateRequestSize c.request) (resolvedAttributes p next c),
        Observation.recordInt MetricHTTPServerResponseBodySize
          (next c).responseSize (resolvedAttributes p next c),
        Observation.addInt MetricHTTPServerActiveRequests (-1)
          (inflightAttributes c (p.requestCounterHostLabelMappingFunc c))],
       (next c).err) := by
  simp [handlerFunc, hp, hs, resolvedAttributes]

/-- on a measured request the legacy middleware issues exactly the four
operations of opentelemetry-meter.go lines 318-342, in program order, and
returns the handler's error unchanged. -/
theorem HandlerFunc_measured (pl : PrometheusConfig)
    (next : EchoContext → HandlerOutcome) (c : EchoContext)
    (hp : c.path ≠ pl.metricsPath) (hs : pl.skipper c = false) :
    HandlerFunc pl next c =
      (let status := resolveStatus (next c).responseStatus (next c).err
       let url := if pl.urlLabelFromContext.length > 0 then
           match c.store pl.urlLabelFromContext with
           | none => "unknown"
           | some u => u
         else pl.requestCounterURLLabelMappingFunc c
       [Observation.recordFloat (pl.subsystem ++ "." ++ "request_duration")
          (((next c).elapsedNs : ℚ) / 1000000)
          [⟨"code", .int status⟩, ⟨"method", .str c.request.method⟩, ⟨"url", .str url⟩],
        Observation.addInt (pl.subsystem ++ "." ++ "requests_total") 1
          [⟨"code", .int status⟩, ⟨"method", .str c.request.method⟩,
           ⟨"host", .str (pl.requestCounterHostLabelMappingFunc c)⟩, ⟨"url", .str url⟩],
        Observation.recordFloat (pl.subsystem ++ "." ++ "request_size")
          ((computeApproximateRequestSize c.request : ℚ))
          [⟨"code", .int status⟩, ⟨"method", .str c.request.method⟩, ⟨"url", .str url⟩],
        Observation.recordFloat (pl.subsystem ++ "." ++ "response_size")
          (((next c).responseSize : ℚ))
          [⟨"code", .int status⟩, ⟨"method", .str c.request.method⟩, ⟨"url", .str url⟩]],
       (next c).err) := by
  simp [HandlerFunc, hp, hs]

/-! ### C2: the in-flight counter nets to zero on every measured request -/

/-- C2: on every measured request, the very first instrument operation (issued
before the wrapped handler runs) adds +1 to the in-flight up/down counter, the
very last one (after the handler returned) adds -1 with the same attributes,
and the deltas on that counter sum to zero — whatever the handler returned
(otel-meter.go 247-248 and 289-290). -/
theorem inflight_counter_nets_to_zero (p : MiddlewareConfig)
    (next : EchoContext → HandlerOutcome) (c : EchoContext)
    (hp : c.path ≠ p.metricsPath) (hs : p.skipper c = false) :
    (handlerFunc p next c).1.head? =
        some (Observation.addInt MetricHTTPServerActiveRequests 1
          (inflightAttributes c (p.requestCounterHostLabelMappingFunc c))) ∧
      (handlerFunc p next c).1.getLast? =
        some (Observation.addInt MetricHTTPServerActiveRequests (-1)
          (inflightAttributes c (p.requestCounterHostLabelMappingFunc c))) ∧
      activeSum (handlerFunc p next c).1 = 0 := by
  rw [handlerFunc_measured p next c hp hs]
  refine ⟨rfl, rfl, ?_⟩
  simp [activeSum, activeDelta, MetricHTTPServerActiveRequests]

/-- witness for C2 at a concrete measured request whose handler errored. -/
theorem inflight_counter_nets_to_zero_witness :
    (handlerFunc sampleCfg erroringNext sampleCtx).1.head? =
        some (Observation.addInt MetricHTTPServerActiveRequests 1
          (inflightAttributes sampleCtx
            (sampleCfg.requestCounterHostLabelMappingFunc sampleCtx))) ∧
      (handlerFunc sampleCfg erroringNext sampleCtx).1.getLast? =
        some (Observation.addInt MetricHTTPServerActiveRequests (-1)
          (inflightAttributes sampleCtx
            (sampleCfg.requestCounterHostLabelMappingFunc sampleCtx))) ∧
      activeSum (handlerFunc sampleCfg erroringNext sampleCtx).1 = 0 :=
  inflight_counter_nets_to_zero sampleCfg erroringNext sampleCtx
    (by decide) rfl

/-! ### C3: exactly one request-counter increment with the resolved labels -/

/-- C3: on every measured request, the middleware issues exactly one Add of
delta 1 on the request counter, and its label set is exactly the resolved
scheme, status code, method, host and route (otel-meter.go 269-280). -/
theorem one_counter_increment_with_resolved_labels (p : MiddlewareConfig)
    (next : EchoContext → HandlerOutcome) (c : EchoContext)
    (hp : c.path ≠ p.metricsPath) (hs : p.skipper c = false) :
    (handlerFunc p next c).1.filter isRequestsAdd =
      [Observation.addInt "requests" 1
        (commonAttributes c (resolveStatus (next c).responseStatus (next c).err)
          (p.requestCounterHostLabelMappingFunc c)
          (p.requestCounterURLLabelMappingFunc c))] := by
  rw [handlerFunc_measured p next c hp hs]
  simp [isRequestsAdd, resolvedAttributes, MetricHTTPServerActiveRequests,
    MetricHTTPServerRequestDuration, MetricHTTPServerRequestBodySize,
    MetricHTTPServerResponseBodySize]

/-- witness for C3 at a concrete measured request. -/
theorem one_counter_increment_with_resolved_labels_witness :
    (handlerFunc sampleCfg sampleNext sampleCtx).1.filter isRequestsAdd =
      [Observation.addInt "requests" 1
        (commonAttributes sampleCtx
          (resolveStatus (sampleNext sampleCtx).responseStatus (sampleNext sampleCtx).err)
          (sampleCfg.requestCounterHostLabelMappingFunc sampleCtx)
          (sampleCfg.requestCounterURLLabelMappingFunc sampleCtx))] :=
  one_counter_increment_with_resolved_labels sampleCfg sampleNext sampleCtx
    (by decide) rfl

/-! ### C1: status-code label resolution -/

/-- the status value before the 0/200-to-500 forcing: the error's embedded
code when the error is a typed HTTP error, the response status otherwise. -/
def rawStatus (responseStatus : Int) (e : GoError) : Int :=
  match e.asHTTPError with
  | some he => he.code
  | none => responseStatus

/-- C1: on every measured request the status-code label on the request counter
is `resolveStatus` of the response status and the handler error, and
`resolveStatus` behaves as specified: the response status when the error is
nil; the embedded code of a typed HTTP error (whenever that code is not 0 and
not 200); 500 whenever an error is present and the code would otherwise be 0
or 200; and with an error present the label is never 0 and never 200
(otel-meter.go 252-262). -/
theorem status_label_resolution (p : MiddlewareConfig)
    (next : EchoContext → HandlerOutcome) (c : EchoContext)
    (hp : c.path ≠ p.metricsPath) (hs : p.skipper c = false) :
    counterStatusAttr (handlerFunc p next c).1
        = some (resolveStatus (next c).responseStatus (next c).err) ∧
      (∀ st : Int, resolveStatus st none = st) ∧
      (∀ st k : Int, ¬(k = 0 ∨ k = 200) →
        resolveStatus st (some ⟨some ⟨k⟩⟩) = k) ∧
      (∀ (st : Int) (e : GoError),
        rawStatus st e = 0 ∨ rawStatus st e = 200 → resolveStatus st (some e) = 500) ∧
      (∀ (st : Int) (e : GoError),
        resolveStatus st (some e) ≠ 0 ∧ resolveStatus st (some e) ≠ 200) := by
  refine ⟨?_, fun st => rfl, ?_, ?_, ?_⟩
  · rw [handlerFunc_measured p next c hp hs]
    simp [counterStatusAttr, isRequestsAdd, resolvedAttributes, commonAttributes,
      MetricHTTPServerActiveRequests, MetricHTTPServerRequestDuration,
      MetricHTTPServerRequestBodySize, MetricHTTPServerResponseBodySize,
      URLScheme, HttpResponseStatusCode]
  · intro st k hk
    simp [resolveStatus, hk]
  · intro st e h
    unfold resolveStatus rawStatus at *
    rcases e.asHTTPError with _ | he <;> simp_all
  · intro st e
    unfold resolveStatus
    rcases e.asHTTPError with _ | he <;> dsimp <;> split <;> omega

/-- witness for C1 at a concrete measured request whose handler returned a
typed HTTP error carrying code 409: the label is 409. -/
theorem status_label_resolution_witness :
    (counterStatusAttr (handlerFunc sampleCfg erroringNext sampleCtx).1
        = some (resolveStatus (erroringNext sampleCtx).responseStatus
            (erroringNext sampleCtx).err) ∧
      (∀ st : Int, resolveStatus st none = st) ∧
      (∀ st k : Int, ¬(k = 0 ∨ k = 200) →
        resolveStatus st (some ⟨some ⟨k⟩⟩) = k) ∧
      (∀ (st : Int) (e : GoError),
        rawStatus st e = 0 ∨ rawStatus st e = 200 → resolveStatus st (some e) = 500) ∧
      (∀ (st : Int) (e : GoError),
        resolveStatus st (some e) ≠ 0 ∧ resolveStatus st (some e) ≠ 200)) ∧
      resolveStatus (erroringNext sampleCtx).responseStatus (erroringNext sampleCtx).err
        = 409 :=
  ⟨status_label_resolution sampleCfg erroringNext sampleCtx (by decide) rfl, by decide⟩

/-! ### C9: recorded duration values in the two modes -/

/-- the value carried by a Float64Histogram Record observation. -/
def recordedValue : Observation → Option ℚ
  | .recordFloat _ v _ => some v
  | _ => none

/-- the first observation on the semantic duration histogram. -/
def durationObservation (l : List Observation) : Option Observation :=
  l.find? fun o => match o with
    | .recordFloat instr _ _ => instr = MetricHTTPServerRequestDuration
    | _ => false

/-- C9: on every measured request, seconds mode (otel-meter.go 264-277) records
the elapsed time truncated to whole milliseconds and divided by 1000, while
milliseconds mode (opentelemetry-meter.go 307-318) records the elapsed time in
(fractional) milliseconds. -/
theorem duration_recorded_per_mode (p : MiddlewareConfig) (pl : PrometheusConfig)
    (next : EchoContext → HandlerOutcome) (c : EchoContext)
    (hp : c.path ≠ p.metricsPath) (hs : p.skipper c = false)
    (hpl : c.path ≠ pl.metricsPath) (hsl : pl.skipper c = false) :
    (durationObservation (handlerFunc p next c).1).bind recordedValue
        = some ((((next c).elapsedNs / 1000000 : Nat) : ℚ) / 1000) ∧
      (HandlerFunc pl next c).1.head?.bind recordedValue
        = some (((next c).elapsedNs : ℚ) / 1000000) := by
  constructor
  · rw [handlerFunc_measured p next c hp hs]
    simp [durationObservation, recordedValue,
      MetricHTTPServerActiveRequests, MetricHTTPServerRequestDuration]
  · rw [HandlerFunc_measured pl next c hpl hsl]
    simp [recordedValue]

/-- witness for C9 at a concrete measured request taking 7.5 ms: seconds mode
records 7/1000 (whole milliseconds divided by 1000), milliseconds mode records
7.5. -/
theorem duration_recorded_per_mode_witness :
    ((durationObservation (handlerFunc sampleCfg sampleNext sampleCtx).1).bind recordedValue
        = some ((((sampleNext sampleCtx).elapsedNs / 1000000 : Nat) : ℚ) / 1000) ∧
      (HandlerFunc samplePromCfg sampleNext sampleCtx).1.head?.bind recordedValue
        = some (((sampleNext sampleCtx).elapsedNs : ℚ) / 1000000)) ∧
      ((((sampleNext sampleCtx).elapsedNs / 1000000 : Nat) : ℚ) / 1000 = 7/1000 ∧
        ((sampleNext sampleCtx).elapsedNs : ℚ) / 1000000 = 15/2) :=
  ⟨duration_recorded_per_mode sampleCfg samplePromCfg sampleNext sampleCtx
      (by decide) rfl (by decide) rfl,
    by constructor <;> norm_num [sampleNext]⟩

/-! ### C5: the size estimator -/

/-- total byte length of all header names and values. -/
def headerSize (h : List (String × List String)) : Int :=
  (h.map (fun nv =>
    (nv.1.utf8ByteSize : Int) + (nv.2.map (fun v => (v.utf8ByteSize : Int))).sum)).sum

theorem foldl_add_values (vs : List String) (a : Int) :
    vs.foldl (fun t v => t + (v.utf8ByteSize : Int)) a
      = a + (vs.map (fun v => (v.utf8ByteSize : Int))).sum := by
  induction vs generalizing a with
  | nil => simp
  | cons v vs ih => simp [ih, add_assoc]

theorem foldl_add_header (h : List (String × List String)) (a : Int) :
    h.foldl (fun acc nv =>
        nv.2.foldl (fun t v => t + (v.utf8ByteSize : Int)) (acc + (nv.1.utf8ByteSize : Int))) a
      = a + headerSize h := by
  induction h generalizing a with
  | nil => simp [headerSize]
  | cons nv t ih =>
    simp only [List.foldl_cons]
    rw [foldl_add_values, ih]
    simp only [headerSize, List.map_cons, List.sum_cons]
    ring

theorem headerSize_nonneg (h : List (String × List String)) : 0 ≤ headerSize h := by
  apply List.sum_nonneg
  intro x hx
  obtain ⟨nv, _, rfl⟩ := List.mem_map.mp hx
  have : 0 ≤ (nv.2.map (fun v => (v.utf8ByteSize : Int))).sum := by
    apply List.sum_nonneg
    intro y hy
    obtain ⟨v, _, rfl⟩ := List.mem_map.mp hy
    positivity
  positivity

/-- C5: for every request (with its URL present and its ContentLength in the
domain net/http guarantees — -1 for unknown, otherwise non-negative), the size
estimator returns the sum of the path, method, protocol, header-name,
header-value and host byte lengths, plus the declared content length exactly
when it is non-negative; the result is non-negative
(otel-meter.go 388-410). -/
theorem size_estimator_sum (r : HttpRequest) (u : URL) (hu : r.url = some u)
    (hcl : r.contentLength = -1 ∨ 0 ≤ r.contentLength) :
    computeApproximateRequestSize r =
        (u.path.utf8ByteSize : Int) + (r.method.utf8ByteSize : Int)
          + (r.proto.utf8ByteSize : Int) + headerSize r.header
          + (r.host.utf8ByteSize : Int)
          + (if 0 ≤ r.contentLength then r.contentLength else 0) ∧
      0 ≤ computeApproximateRequestSize r := by
  have hnn := headerSize_nonneg r.header
  have heq : computeApproximateRequestSize r =
      (u.path.utf8ByteSize : Int) + (r.method.utf8ByteSize : Int)
        + (r.proto.utf8ByteSize : Int) + headerSize r.header
        + (r.host.utf8ByteSize : Int)
        + (if 0 ≤ r.contentLength then r.contentLength else 0) := by
    simp only [computeApproximateRequestSize, hu]
    rw [foldl_add_header]
    rcases hcl with h | h
    · rw [h]
      norm_num
    · have hne : r.contentLength ≠ -1 := by omega
      rw [if_pos hne, if_pos h]
  refine ⟨heq, ?_⟩
  rw [heq]
  split <;> omega

/-- witness for C5 at a concrete request: GET /ping with one header and
content length 5 sums to 47 bytes. -/
theorem size_estimator_sum_witness :
    sampleRequest.url = some ⟨"/ping"⟩ ∧
      (sampleRequest.contentLength = -1 ∨ 0 ≤ sampleRequest.contentLength) ∧
      (computeApproximateRequestSize sampleRequest =
          ((URL.mk "/ping").path.utf8ByteSize : Int)
            + (sampleRequest.method.utf8ByteSize : Int)
            + (sampleRequest.proto.utf8ByteSize : Int) + headerSize sampleRequest.header
            + (sampleRequest.host.utf8ByteSize : Int)
            + (if 0 ≤ sampleRequest.contentLength then sampleRequest.contentLength else 0) ∧
        0 ≤ computeApproximateRequestSize sampleRequest) ∧
      computeApproximateRequestSize sampleRequest = 47 :=
  ⟨rfl, Or.inr (by decide),
    size_estimator_sum sampleRequest ⟨"/ping"⟩ rfl (Or.inr (by decide)),
    by decide⟩

/-! ### C8: bucket-boundary sets are never cross-wired between unit classes -/

/-- C8: the views of initMetricsMeterProvider give the duration instrument the
seconds-scaled boundary set and the two body-size instruments the bytes-scaled
set; the unit-keyed selector of otelmetric/selector.go gives millisecond-unit
histograms the duration set and byte-unit histograms the size set; the
duration-class and size-class boundary arrays are distinct and even
element-disjoint, so a duration boundary such as 0.005 never appears on a size
histogram and a size boundary such as 1024 never appears on a duration
histogram. -/
theorem bucket_classes_not_cross_wired :
    assignedBoundaries MetricHTTPServerRequestDuration .histogram
        = some reqDurBucketsSeconds ∧
      assignedBoundaries MetricHTTPServerRequestBodySize .histogram = some byteBuckets ∧
      assignedBoundaries MetricHTTPServerResponseBodySize .histogram = some byteBuckets ∧
      (∀ x ∈ reqDurBucketsSeconds, x ∉ byteBuckets) ∧
      (∀ x ∈ longExecBucketsSeconds, x ∉ byteBuckets) ∧
      ((5/1000 : ℚ) ∈ reqDurBucketsSeconds ∧ (5/1000 : ℚ) ∉ byteBuckets ∧
        (1024 : ℚ) ∈ byteBuckets ∧ (1024 : ℚ) ∉ reqDurBucketsSeconds ∧
        (1024 : ℚ) ∉ longExecBucketsSeconds) ∧
      AggregatorFor .histogram "ms" none = .histogramAgg (some reqDurBuckets) ∧
      AggregatorFor .histogram "By" none = .histogramAgg (some reqSzBuckets) ∧
      (∀ x ∈ reqDurBuckets, x ∉ reqSzBuckets) ∧
      reqDurBucketsSeconds ≠ byteBuckets ∧ longExecBucketsSeconds ≠ byteBuckets ∧
      reqDurBuckets ≠ reqSzBuckets := by
  refine ⟨rfl, rfl, rfl, ?_, ?_, ?_, rfl, rfl, ?_, ?_, ?_, ?_⟩
  · intro x hx
    simp only [reqDurBucketsSeconds, List.mem_cons, List.not_mem_nil, or_false] at hx
    rcases hx with rfl | rfl | rfl | rfl | rfl | rfl | rfl | rfl | rfl | rfl | rfl <;>
      norm_num [byteBuckets]
  · intro x hx
    simp only [longExecBucketsSeconds, List.mem_cons, List.not_mem_nil, or_false] at hx
    rcases hx with rfl | rfl | rfl | rfl | rfl | rfl | rfl | rfl | rfl | rfl | rfl | rfl |
      rfl | rfl | rfl | rfl <;> norm_num [byteBuckets]
  · refine ⟨?_, ?_, ?_, ?_, ?_⟩ <;> norm_num [reqDurBucketsSeconds, byteBuckets,
      longExecBucketsSeconds]
  · intro x hx
    simp only [reqDurBuckets, List.mem_cons, List.not_mem_nil, or_false] at hx
    rcases hx with rfl | rfl | rfl | rfl | rfl | rfl | rfl | rfl | rfl | rfl | rfl <;>
      norm_num [reqSzBuckets]
  · intro h
    have := congrArg (fun l => l.headI) h
    norm_num [reqDurBucketsSeconds, byteBuckets] at this
  · intro h
    have := congrArg (fun l => l.headI) h
    norm_num [longExecBucketsSeconds, byteBuckets] at this
  · intro h
    have := congrArg (fun l => l.headI) h
    norm_num [reqDurBuckets, reqSzBuckets] at this

/-! ### C7: instrument-creation failures at construction -/

/-- C7 evaluation: `New` panics when the creation of the requests counter or
of any of the three histograms fails, but a failure creating the
active-requests up/down counter is silently discarded (its `err` is assigned
at otel-meter.go:193 and overwritten unchecked at line 198) and construction
returns a usable instance; the legacy `registerMetrics` discards every
creation error. This refutes the claim that no instrument-creation error is
silently discarded. -/
theorem active_requests_creation_error_discarded :
    New ⟨[MetricHTTPServerActiveRequests]⟩ =
        .ok ["requests", MetricHTTPServerActiveRequests,
             MetricHTTPServerRequestDuration, MetricHTTPServerRequestBodySize,
             MetricHTTPServerResponseBodySize] ∧
      New ⟨["requests"]⟩ = .panicked "requests" ∧
      New ⟨[MetricHTTPServerRequestDuration]⟩ =
        .panicked MetricHTTPServerRequestDuration ∧
      New ⟨[MetricHTTPServerRequestBodySize]⟩ =
        .panicked MetricHTTPServerRequestBodySize ∧
      New ⟨[MetricHTTPServerResponseBodySize]⟩ =
        .panicked MetricHTTPServerResponseBodySize ∧
      registerMetrics ⟨["echo.requests_total", "echo.request_duration",
          "echo.response_size", "echo.request_size"]⟩ "echo" =
        .ok ["echo.requests_total", "echo.request_duration", "echo.response_size",
             "echo.request_size"] :=
  ⟨rfl, rfl, rfl, rfl, rfl, rfl⟩

/-! ### C6: duplicate registration at construction -/

/-- C6 counterexample: against the same registry, a first construction for
namespace "myapp" succeeds, and a second construction for the same namespace
hits the already-registered condition and panics — construction performs no
detect-and-recover, refuting the claim that a second construction never
panics. -/
theorem second_construction_panics :
    initMetricsMeterProvider "myapp" ⟨[]⟩ =
        .ok ⟨["myapp_requests_total", "myapp_request_duration_seconds",
              "myapp_request_size_bytes", "myapp_response_size_bytes"]⟩ ∧
      initMetricsMeterProvider "myapp"
          ⟨["myapp_requests_total", "myapp_request_duration_seconds",
            "myapp_request_size_bytes", "myapp_response_size_bytes"]⟩ =
        .error "myapp_requests_total" :=
  ⟨rfl, rfl⟩

/-- C6 amended: the detect-and-recover logic lives in the separate helper
`unregisterDefaults`, not in construction: run between constructions, it
detects each already-registered family via the dummy-duplicate idiom and
unregisters the existing collector (registering a leftover dummy for the one
family name that was not present), after which a second construction for the
same namespace succeeds and the registry holds no duplicate collectors. -/
theorem unregister_then_reconstruct_succeeds :
    unregisterDefaults "myapp"
        ⟨["myapp_requests_total", "myapp_request_duration_seconds",
          "myapp_request_size_bytes", "myapp_response_size_bytes"]⟩ =
        ⟨["myapp_request_duration_milliseconds"]⟩ ∧
      initMetricsMeterProvider "myapp" ⟨["myapp_request_duration_milliseconds"]⟩ =
        .ok ⟨["myapp_request_duration_milliseconds", "myapp_requests_total",
              "myapp_request_duration_seconds", "myapp_request_size_bytes",
              "myapp_response_size_bytes"]⟩ ∧
      List.Nodup ["myapp_request_duration_milliseconds", "myapp_requests_total",
        "myapp_request_duration_seconds", "myapp_request_size_bytes",
        "myapp_response_size_bytes"] :=
  ⟨rfl, rfl, by decide⟩

end EchoOtelMetrics
